import Mathlib

/-!
Shallow embedding of `src/Decidr.py`, a single-file Streamlit chat
front-end.  Pure helpers (`create_system_prompt`) become Lean functions;
the Streamlit event handlers (Start New Decision button, chat input,
Clear Conversation button, example buttons) become explicit
state-transformers on a `SessionState` record.  The HTTP round-trip in
`query_ai` is parameterised by an `ApiOutcome` oracle describing what the
remote call did (transport failure, JSON parse failure, or a successful
parse yielding a JSON body).  Python runtime errors raised by subscript
expressions such as `response["choices"][0]["message"]["content"]` are
modelled with `Except PyErr`; an uncaught exception escaping a handler is
recorded in the `crash` field of `HandlerResult`.
-/

namespace Decidr

/-- JSON values, the possible results of `response.json()`. -/
inductive Json where
  | null : Json
  | bool (b : Bool) : Json
  | num (n : Int) : Json
  | str (s : String) : Json
  | arr (xs : List Json) : Json
  | obj (fields : List (String × Json)) : Json

/-- Python runtime errors that the subscript expressions in the source can raise. -/
inductive PyErr where
  | keyError : PyErr
  | indexError : PyErr
  | typeError : PyErr
deriving DecidableEq

/-- Python truthiness of a JSON value (`if response ...`). -/
def Json.truthy : Json → Bool
  | .null => false
  | .bool b => b
  | .num n => n != 0
  | .str s => s != ""
  | .arr xs => !xs.isEmpty
  | .obj fs => !fs.isEmpty

/-- Python substring test, `needle in hay` for strings. -/
def strContains (hay needle : String) : Bool :=
  (List.range (hay.toList.length + 1)).any (fun i => needle.toList.isPrefixOf (hay.toList.drop i))

/-- Python membership test `k in j`: key membership for dicts, element
equality for lists, substring for strings, `TypeError` otherwise. -/
def pyContains (j : Json) (k : String) : Except PyErr Bool :=
  match j with
  | .obj fs => .ok (fs.any (fun f => f.1 == k))
  | .arr xs => .ok (xs.any (fun x => match x with | .str s => s == k | _ => false))
  | .str s => .ok (strContains s k)
  | _ => .error .typeError

/-- Python subscript `j[k]` with a string key: dict lookup with
`KeyError` on a missing key, `TypeError` on non-dicts. -/
def Json.getKey : Json → String → Except PyErr Json
  | .obj fs, k =>
    match fs.lookup k with
    | some v => .ok v
    | none => .error .keyError
  | _, _ => .error .typeError

/-- Python subscript `j[n]` with an integer index: list/string indexing
with `IndexError` out of range, `KeyError` on dicts (whose keys here are
strings), `TypeError` otherwise. -/
def Json.getIdx : Json → Nat → Except PyErr Json
  | .arr xs, n =>
    match xs[n]? with
    | some v => .ok v
    | none => .error .indexError
  | .str s, n =>
    match s.toList[n]? with
    | some c => .ok (.str (String.mk [c]))
    | none => .error .indexError
  | .obj _, _ => .error .keyError
  | _, _ => .error .typeError

/-- The extraction `response["choices"][0]["message"]["content"]`
performed by both handlers (lines 116 and 169 of the source). -/
def extractReply (j : Json) : Except PyErr Json := do
  let c ← j.getKey "choices"
  let c0 ← c.getIdx 0
  let m ← c0.getKey "message"
  m.getKey "content"

/-- A chat message as stored in `st.session_state.messages`: a dict with
a `role` and a `content` entry; the content stored for the assistant is
whatever the extraction produced, hence a JSON value. -/
structure Message where
  role : String
  content : Json

def userMsg (s : String) : Message := ⟨"user", Json.str s⟩

def asstMsg (j : Json) : Message := ⟨"assistant", j⟩

def sysMsg (s : String) : Message := ⟨"system", Json.str s⟩

/-- The session-state keys the source reads and writes
(`st.session_state.messages`, `.decision_context`, `.current_decision`). -/
structure SessionState where
  messages : List Message
  decision_context : String
  current_decision : String

/-- The raw `st.session_state` before `initialize_session_state`: each
key may be absent. -/
structure RawSessionState where
  messages : Option (List Message)
  decision_context : Option String
  current_decision : Option String

/-- `initialize_session_state` (source lines 53-60): each key is set to
its default only when absent. -/
def init_session_state (s : RawSessionState) : RawSessionState where
  messages := match s.messages with
    | none => some []
    | some v => some v
  decision_context := match s.decision_context with
    | none => some ""
    | some v => some v
  current_decision := match s.current_decision with
    | none => some ""
    | some v => some v

/-- The fixed instructional template of `create_system_prompt`
(source lines 64-72). -/
def basePrompt : String :=
  "You are Decidr, an expert decision-making assistant. Your role is to help users make thoughtful, well-informed decisions by:\n\n1. Asking clarifying questions to understand the situation fully\n2. Helping identify pros and cons\n3. Considering different perspectives and potential outcomes\n4. Suggesting decision-making frameworks when appropriate\n5. Providing objective analysis while respecting the user\x27s values and preferences\n\nBe conversational, empathetic, and practical. Ask one question at a time to avoid overwhelming the user. Help them think through their decision systematically."

/-- `create_system_prompt` (source lines 62-77): appends the context
section only when the context string is truthy (non-empty). -/
def create_system_prompt (decision_context : String := "") : String :=
  if decision_context = "" then basePrompt
  else basePrompt ++ ("\n\nCurrent decision context: " ++ decision_context)

/-- Outcome of the single HTTP POST in `query_ai`: a
`requests.exceptions.RequestException` (including a failure HTTP status
raised by `raise_for_status`), a `json.JSONDecodeError` from
`response.json()`, or a successfully parsed JSON body. -/
inductive ApiOutcome where
  | transportError : ApiOutcome
  | parseError : ApiOutcome
  | success (body : Json) : ApiOutcome

/-- The user-visible inline messages the source can emit via `st.error`. -/
inductive Shown where
  | apiRequestFailed : Shown
  | parseResponseFailed : Shown
  | couldNotGetResponse : Shown
deriving DecidableEq

/-- The JSON request body built by `query_ai` (source lines 34-40). -/
structure Payload where
  messages : List Message
  model : String
  max_tokens : Nat
  temperature : Rat
  stream : Bool

/-- What one call to `query_ai` produced: the payload it posted, its
return value, and the errors it displayed. -/
structure QueryResult where
  payload : Payload
  result : Option Json
  shown : List Shown

/-- `query_ai` (source lines 31-51): builds the fixed payload, performs
one POST, returns the parsed body on success and `None` (displaying an
inline error) on transport or parse failure. -/
def query_ai (messages : List Message) (outcome : ApiOutcome)
    (model : String := "Qwen/Qwen3-VL-8B-Instruct:novita") : QueryResult :=
  let payload : Payload :=
    { messages := messages, model := model, max_tokens := 500,
      temperature := 7/10, stream := false }
  match outcome with
  | .transportError => ⟨payload, none, [.apiRequestFailed]⟩
  | .parseError => ⟨payload, none, [.parseResponseFailed]⟩
  | .success body => ⟨payload, some body, []⟩

/-- Result of running one event handler: the session state when the
handler finished (or when an exception escaped), the inline messages it
displayed, the API payloads it posted, and the uncaught Python exception
if one escaped. -/
structure HandlerResult where
  state : SessionState
  shown : List Shown
  apiCalls : List Payload
  crash : Option PyErr

/-- The `st.chat_input` handler, `SubmitMessage` (source lines 151-175):
append the user message, post system prompt plus full history, and on a
truthy response containing `choices` extract and append the assistant
reply; otherwise display an inline error.  The extraction can raise. -/
def submitMessage (s : SessionState) (prompt : String) (outcome : ApiOutcome) : HandlerResult :=
  let s1 : SessionState := { s with messages := s.messages ++ [userMsg prompt] }
  let aiMessages := sysMsg (create_system_prompt s.decision_context) :: s1.messages
  let q := query_ai aiMessages outcome
  match q.result with
  | none => ⟨s1, q.shown ++ [.couldNotGetResponse], [q.payload], none⟩
  | some j =>
    if j.truthy then
      match pyContains j "choices" with
      | .error e => ⟨s1, q.shown, [q.payload], some e⟩
      | .ok false => ⟨s1, q.shown ++ [.couldNotGetResponse], [q.payload], none⟩
      | .ok true =>
        match extractReply j with
        | .error e => ⟨s1, q.shown, [q.payload], some e⟩
        | .ok ai => ⟨{ s1 with messages := s1.messages ++ [asstMsg ai] }, q.shown, [q.payload], none⟩
    else ⟨s1, q.shown ++ [.couldNotGetResponse], [q.payload], none⟩

/-- The Start New Decision button handler, `StartNewDecision` (source
lines 102-121): clear `messages`, set `current_decision`, and when the
context is non-empty perform one seeded round-trip, storing the user
message and the assistant reply on success; no inline error of its own
on failure. -/
def startNewDecision (s : SessionState) (ctx : String) (outcome : ApiOutcome) : HandlerResult :=
  let s1 : SessionState := { s with messages := [], current_decision := ctx }
  if ctx = "" then ⟨s1, [], [], none⟩
  else
    let im := [sysMsg (create_system_prompt ctx), userMsg ("I need help deciding: " ++ ctx)]
    let q := query_ai im outcome
    match q.result with
    | none => ⟨s1, q.shown, [q.payload], none⟩
    | some j =>
      if j.truthy then
        match pyContains j "choices" with
        | .error e => ⟨s1, q.shown, [q.payload], some e⟩
        | .ok false => ⟨s1, q.shown, [q.payload], none⟩
        | .ok true =>
          match extractReply j with
          | .error e => ⟨s1, q.shown, [q.payload], some e⟩
          | .ok ai =>
            ⟨{ s1 with
                messages := [userMsg ("I need help deciding: " ++ ctx), asstMsg ai] },
              q.shown, [q.payload], none⟩
      else ⟨s1, q.shown, [q.payload], none⟩

/-- The Clear Conversation button handler (source lines 124-126). -/
def clearConversation (s : SessionState) : SessionState :=
  { s with messages := [] }

/-- The fixed scenario text of the Moving Decision example button
(source line 191). -/
def movingExamplePrompt : String :=
  "I\x27m trying to decide whether to move to a new city for a job opportunity. Can you help me think through this decision?"

/-- An example-scenario button handler (source lines 190-193, 196-199,
202-205): appends one predetermined user message; no API call. -/
def exampleClick (s : SessionState) (p : String) : HandlerResult :=
  ⟨{ s with messages := s.messages ++ [userMsg p] }, [], [], none⟩

/-- A well-formed success body, `{choices: [{message: {content: txt}}]}`. -/
def stdBody (txt : String) : Json :=
  Json.obj [("choices", Json.arr [Json.obj [("message", Json.obj [("content", Json.str txt)])]])]

/-- A fresh session: empty history, empty context strings. -/
def emptySession : SessionState := ⟨[], "", ""⟩

/-- Iterate `SubmitMessage`, every call answered successfully with the
given reply text. -/
def runSubmits (s : SessionState) (calls : List (String × String)) : SessionState :=
  calls.foldl (fun st c => (submitMessage st c.1 (.success (stdBody c.2))).state) s

/-- `true` when the role sequence starting at role `r` strictly
alternates between `user` and `assistant`. -/
def nextRole (r : String) : String :=
  if r = "user" then "assistant" else "user"

def altFrom (r : String) : List Message → Bool
  | [] => true
  | m :: ms => m.role == r && altFrom (nextRole r) ms

/-- `true` when no stored message has the `system` role. -/
def noSystem (msgs : List Message) : Bool :=
  msgs.all (fun m => !(m.role == "system"))

/-- `true` when the handler left the history ending in an assistant message. -/
def storesReply (r : HandlerResult) : Bool :=
  match r.state.messages.getLast? with
  | some m => m.role == "assistant"
  | none => false

/-- `true` when the handler displayed at least one inline message. -/
def showsError (r : HandlerResult) : Bool :=
  !r.shown.isEmpty

/-- The payload `SubmitMessage` posts: system prompt from the current
context followed by the full history including the new user message. -/
def subPayload (s : SessionState) (p : String) : Payload :=
  ⟨sysMsg (create_system_prompt s.decision_context) :: (s.messages ++ [userMsg p]),
    "Qwen/Qwen3-VL-8B-Instruct:novita", 500, 7/10, false⟩

/-- The payload `StartNewDecision` posts: system prompt from the typed
context plus the seeded user message. -/
def startPayload (ctx : String) : Payload :=
  ⟨[sysMsg (create_system_prompt ctx), userMsg ("I need help deciding: " ++ ctx)],
    "Qwen/Qwen3-VL-8B-Instruct:novita", 500, 7/10, false⟩

/-- C5: `query_ai` posts exactly `max_tokens=500`, `temperature=0.7`,
`stream=false` with the given messages unmodified; on transport or parse
failure it displays the inline error and returns `None` without raising;
on success it returns the full parsed response object. -/
theorem C5_query_ai_contract (msgs : List Message) (model : String)
    (outcome : ApiOutcome) (j : Json) :
    (query_ai msgs outcome model).payload =
      ⟨msgs, model, 500, 7/10, false⟩
  ∧ (query_ai msgs ApiOutcome.transportError model).result = none
  ∧ (query_ai msgs ApiOutcome.transportError model).shown = [Shown.apiRequestFailed]
  ∧ (query_ai msgs ApiOutcome.parseError model).result = none
  ∧ (query_ai msgs ApiOutcome.parseError model).shown = [Shown.parseResponseFailed]
  ∧ (query_ai msgs (ApiOutcome.success j) model).result = some j
  ∧ (query_ai msgs (ApiOutcome.success j) model).shown = [] := by
  refine ⟨?_, rfl, rfl, rfl, rfl, rfl, rfl⟩
  cases outcome <;> rfl

/-- C6: `create_system_prompt c` always starts with the fixed template
verbatim; on the empty context it is exactly the template; on a
non-empty context the context section is appended after the template. -/
theorem C6_create_system_prompt_spec (c : String) :
    (∃ t, create_system_prompt c = basePrompt ++ t)
  ∧ create_system_prompt "" = basePrompt
  ∧ (c ≠ "" →
      create_system_prompt c = basePrompt ++ ("\n\nCurrent decision context: " ++ c)) := by
  refine ⟨?_, rfl, fun h => by simp [create_system_prompt, h]⟩
  by_cases h : c = ""
  · exact ⟨"", by simp [create_system_prompt, h]⟩
  · exact ⟨"\n\nCurrent decision context: " ++ c, by simp [create_system_prompt, h]⟩

theorem C6_witness :
    create_system_prompt "hello" =
      basePrompt ++ ("\n\nCurrent decision context: " ++ "hello") :=
  (C6_create_system_prompt_spec "hello").2.2 (by decide)

/-- C8: `ClearConversation` empties the history unconditionally from
every state, and doing it twice yields an empty history both times. -/
theorem C8_clearConversation_idempotent (s : SessionState) :
    (clearConversation s).messages = []
  ∧ clearConversation (clearConversation s) = clearConversation s
  ∧ (clearConversation (clearConversation s)).messages = [] :=
  ⟨rfl, rfl, rfl⟩

/-- C9: the Moving Decision example button appends exactly one user
message carrying the fixed scenario text, triggers no API call, and
leaves everything previously stored unchanged. -/
theorem C9_exampleClick_moving (s : SessionState) :
    (exampleClick s movingExamplePrompt).state.messages =
      s.messages ++ [userMsg movingExamplePrompt]
  ∧ (exampleClick s movingExamplePrompt).apiCalls = []
  ∧ (exampleClick s movingExamplePrompt).shown = []
  ∧ (exampleClick s movingExamplePrompt).crash = none
  ∧ (exampleClick s movingExamplePrompt).state.decision_context = s.decision_context
  ∧ (exampleClick s movingExamplePrompt).state.current_decision = s.current_decision :=
  ⟨rfl, rfl, rfl, rfl, rfl, rfl⟩

/-- C10: `initialize_session_state` keeps every key that is already
present unchanged and sets only absent keys to their defaults
(`[]`, `""`, `""`); it is idempotent. -/
theorem C10_init_session_state_spec (s : RawSessionState) :
    (init_session_state s).messages = some (s.messages.getD [])
  ∧ (init_session_state s).decision_context = some (s.decision_context.getD "")
  ∧ (init_session_state s).current_decision = some (s.current_decision.getD "")
  ∧ init_session_state (init_session_state s) = init_session_state s := by
  obtain ⟨m, d, c⟩ := s
  cases m <;> cases d <;> cases c <;> exact ⟨rfl, rfl, rfl, rfl⟩

/-- C4: on an API failure, `SubmitMessage x` leaves the history equal to
the old history with exactly the one user message `x` appended at the
end (so every earlier entry keeps its role, content and position), no
assistant message follows it, no exception escapes, and the inline
error is shown. -/
theorem C4_submitMessage_failure (s : SessionState) (x : String) (outcome : ApiOutcome)
    (h : outcome = ApiOutcome.transportError ∨ outcome = ApiOutcome.parseError) :
    (submitMessage s x outcome).state.messages = s.messages ++ [userMsg x]
  ∧ (submitMessage s x outcome).crash = none
  ∧ Shown.couldNotGetResponse ∈ (submitMessage s x outcome).shown := by
  rcases h with rfl | rfl <;> exact ⟨rfl, rfl, List.Mem.tail _ (List.Mem.head _)⟩

theorem C4_witness :
    (submitMessage emptySession "X" ApiOutcome.transportError).state.messages = [userMsg "X"]
  ∧ (submitMessage emptySession "X" ApiOutcome.transportError).crash = none
  ∧ Shown.couldNotGetResponse ∈ (submitMessage emptySession "X" ApiOutcome.transportError).shown :=
  C4_submitMessage_failure emptySession "X" ApiOutcome.transportError (Or.inl rfl)

/-- C2: `StartNewDecision` never reads the previous history (clearing it
first); with empty context the history is left empty for every outcome;
with non-empty context and a failing API call the history is left empty;
with non-empty context and a successful call the history is exactly the
seeded user message followed by the assistant reply. -/
theorem C2_startNewDecision_spec (s : SessionState) (ctx txt : String) :
    (∀ outcome, startNewDecision s ctx outcome =
        startNewDecision { s with messages := [] } ctx outcome)
  ∧ (ctx = "" → ∀ outcome, (startNewDecision s ctx outcome).state.messages = [])
  ∧ (ctx ≠ "" → ∀ outcome,
      outcome = ApiOutcome.transportError ∨ outcome = ApiOutcome.parseError →
      (startNewDecision s ctx outcome).state.messages = [])
  ∧ (ctx ≠ "" →
      (startNewDecision s ctx (ApiOutcome.success (stdBody txt))).state.messages =
        [userMsg ("I need help deciding: " ++ ctx), asstMsg (Json.str txt)]) := by
  refine ⟨fun _ => rfl, ?_, ?_, ?_⟩
  · rintro rfl outcome
    rfl
  · rintro h outcome (rfl | rfl) <;>
      simp only [startNewDecision, query_ai, if_neg h]
  · intro h
    simp only [startNewDecision, query_ai, if_neg h]
    rfl

theorem C2_witness :
    (startNewDecision emptySession "x" (ApiOutcome.success (stdBody "ok"))).state.messages =
      [userMsg ("I need help deciding: " ++ "x"), asstMsg (Json.str "ok")] :=
  (C2_startNewDecision_spec emptySession "x" "ok").2.2.2 (by decide)

theorem submitMessage_success_state (s : SessionState) (p t : String) :
    (submitMessage s p (ApiOutcome.success (stdBody t))).state =
      { s with messages := s.messages ++ [userMsg p, asstMsg (Json.str t)] } := by
  show ({ s with messages := (s.messages ++ [userMsg p]) ++ [asstMsg (Json.str t)] } : SessionState) = _
  rw [List.append_assoc]
  rfl

theorem runSubmits_messages (calls : List (String × String)) (s : SessionState) :
    (runSubmits s calls).messages =
      s.messages ++ (calls.map (fun pc => [userMsg pc.1, asstMsg (Json.str pc.2)])).flatten := by
  induction calls generalizing s with
  | nil => simp [runSubmits]
  | cons c cs ih =>
    have h1 : runSubmits s (c :: cs) =
        runSubmits (submitMessage s c.1 (ApiOutcome.success (stdBody c.2))).state cs := rfl
    rw [h1, ih, submitMessage_success_state]
    simp

theorem altFrom_pairs (calls : List (String × String)) :
    altFrom "user" ((calls.map (fun pc => [userMsg pc.1, asstMsg (Json.str pc.2)])).flatten) = true := by
  induction calls with
  | nil => rfl
  | cons c cs ih =>
    simpa [altFrom, nextRole, userMsg, asstMsg] using ih

theorem flatten_pairs_length (calls : List (String × String)) :
    ((calls.map (fun pc => [userMsg pc.1, asstMsg (Json.str pc.2)])).flatten).length =
      2 * calls.length := by
  induction calls with
  | nil => rfl
  | cons c cs ih =>
    simp only [List.map_cons, List.flatten_cons, List.length_append, List.length_cons,
      List.length_nil, ih]
    omega

/-- C3: from the empty history, a sequence of `SubmitMessage` calls that
each succeed yields exactly the user/assistant pairs in order; each call
grows the history by exactly 2, and the result strictly alternates
user/assistant starting with user. -/
theorem C3_submitMessage_alternation (calls : List (String × String)) :
    (runSubmits emptySession calls).messages =
      (calls.map (fun pc => [userMsg pc.1, asstMsg (Json.str pc.2)])).flatten
  ∧ (runSubmits emptySession calls).messages.length = 2 * calls.length
  ∧ (∀ c, (runSubmits emptySession (calls ++ [c])).messages.length =
      (runSubmits emptySession calls).messages.length + 2)
  ∧ altFrom "user" (runSubmits emptySession calls).messages = true := by
  have hm : (runSubmits emptySession calls).messages =
      (calls.map (fun pc => [userMsg pc.1, asstMsg (Json.str pc.2)])).flatten := by
    rw [runSubmits_messages]
    rfl
  refine ⟨hm, ?_, ?_, ?_⟩
  · rw [hm, flatten_pairs_length]
  · intro c
    have h2 : (runSubmits emptySession (calls ++ [c])).messages.length =
        2 * (calls ++ [c]).length := by
      rw [runSubmits_messages]
      simpa [emptySession] using flatten_pairs_length (calls ++ [c])
    rw [h2, hm, flatten_pairs_length]
    simp only [List.length_append, List.length_cons, List.length_nil]
    omega
  · rw [hm]
    exact altFrom_pairs calls

theorem submitMessage_success_eq (s : SessionState) (p : String) (j : Json) :
    submitMessage s p (ApiOutcome.success j) =
      (if j.truthy then
        match pyContains j "choices" with
        | .error e =>
          ⟨{ s with messages := s.messages ++ [userMsg p] }, [], [subPayload s p], some e⟩
        | .ok false =>
          ⟨{ s with messages := s.messages ++ [userMsg p] },
            [Shown.couldNotGetResponse], [subPayload s p], none⟩
        | .ok true =>
          match extractReply j with
          | .error e =>
            ⟨{ s with messages := s.messages ++ [userMsg p] }, [], [subPayload s p], some e⟩
          | .ok ai =>
            ⟨{ s with messages := (s.messages ++ [userMsg p]) ++ [asstMsg ai] },
              [], [subPayload s p], none⟩
      else
        ⟨{ s with messages := s.messages ++ [userMsg p] },
          [Shown.couldNotGetResponse], [subPayload s p], none⟩) := rfl

theorem startNewDecision_empty_eq (s : SessionState) (outcome : ApiOutcome) :
    startNewDecision s "" outcome = ⟨⟨[], s.decision_context, ""⟩, [], [], none⟩ := rfl

theorem startNewDecision_failure_eq (s : SessionState) (ctx : String) (h : ctx ≠ "") :
    startNewDecision s ctx ApiOutcome.transportError =
      ⟨⟨[], s.decision_context, ctx⟩, [Shown.apiRequestFailed], [startPayload ctx], none⟩
  ∧ startNewDecision s ctx ApiOutcome.parseError =
      ⟨⟨[], s.decision_context, ctx⟩, [Shown.parseResponseFailed], [startPayload ctx], none⟩ := by
  constructor <;> simp only [startNewDecision, if_neg h, query_ai, startPayload]

theorem startNewDecision_success_eq (s : SessionState) (ctx : String) (j : Json) (h : ctx ≠ "") :
    startNewDecision s ctx (ApiOutcome.success j) =
      (if j.truthy then
        match pyContains j "choices" with
        | .error e => ⟨⟨[], s.decision_context, ctx⟩, [], [startPayload ctx], some e⟩
        | .ok false => ⟨⟨[], s.decision_context, ctx⟩, [], [startPayload ctx], none⟩
        | .ok true =>
          match extractReply j with
          | .error e => ⟨⟨[], s.decision_context, ctx⟩, [], [startPayload ctx], some e⟩
          | .ok ai =>
            ⟨⟨[userMsg ("I need help deciding: " ++ ctx), asstMsg ai],
                s.decision_context, ctx⟩,
              [], [startPayload ctx], none⟩
      else ⟨⟨[], s.decision_context, ctx⟩, [], [startPayload ctx], none⟩) := by
  simp only [startNewDecision, if_neg h, query_ai, startPayload]

theorem submitMessage_cases (s : SessionState) (p : String) (outcome : ApiOutcome) :
    (submitMessage s p outcome).state.messages = s.messages ++ [userMsg p]
  ∨ ∃ j, (submitMessage s p outcome).state.messages =
      (s.messages ++ [userMsg p]) ++ [asstMsg j] := by
  cases outcome with
  | transportError => exact Or.inl rfl
  | parseError => exact Or.inl rfl
  | success j =>
    rw [submitMessage_success_eq]
    by_cases ht : j.truthy
    · rw [if_pos ht]
      cases hpc : pyContains j "choices" with
      | error e => exact Or.inl rfl
      | ok b =>
        cases b with
        | false => exact Or.inl rfl
        | true =>
          cases hre : extractReply j with
          | error e => exact Or.inl rfl
          | ok ai => exact Or.inr ⟨ai, rfl⟩
    · rw [if_neg ht]
      exact Or.inl rfl

theorem submitMessage_apiCalls (s : SessionState) (p : String) (outcome : ApiOutcome) :
    (submitMessage s p outcome).apiCalls = [subPayload s p] := by
  cases outcome with
  | transportError => rfl
  | parseError => rfl
  | success j =>
    rw [submitMessage_success_eq]
    by_cases ht : j.truthy
    · rw [if_pos ht]
      cases hpc : pyContains j "choices" with
      | error e => rfl
      | ok b =>
        cases b with
        | false => rfl
        | true =>
          cases hre : extractReply j with
          | error e => rfl
          | ok ai => rfl
    · rw [if_neg ht]

theorem startNewDecision_apiCalls (s : SessionState) (ctx : String) (outcome : ApiOutcome)
    (h : ctx ≠ "") :
    (startNewDecision s ctx outcome).apiCalls = [startPayload ctx] := by
  cases outcome with
  | transportError => rw [(startNewDecision_failure_eq s ctx h).1]
  | parseError => rw [(startNewDecision_failure_eq s ctx h).2]
  | success j =>
    rw [startNewDecision_success_eq s ctx j h]
    by_cases ht : j.truthy
    · rw [if_pos ht]
      cases hpc : pyContains j "choices" with
      | error e => rfl
      | ok b =>
        cases b with
        | false => rfl
        | true =>
          cases hre : extractReply j with
          | error e => rfl
          | ok ai => rfl
    · rw [if_neg ht]

theorem noSystem_append (a b : List Message) :
    noSystem (a ++ b) = (noSystem a && noSystem b) := by
  simp [noSystem]

/-- C7: starting from a history that stores no system-role message,
every operation (StartNewDecision, SubmitMessage, ClearConversation,
ExampleClick) leaves a history that still stores no system-role message;
the system message exists only in the API payloads, synthesized fresh at
the head of each posted message list from the current context. -/
theorem C7_no_system_stored (s : SessionState) (ctx p xp : String) (outcome : ApiOutcome)
    (h : noSystem s.messages = true) :
    noSystem (startNewDecision s ctx outcome).state.messages = true
  ∧ noSystem (submitMessage s p outcome).state.messages = true
  ∧ noSystem (clearConversation s).messages = true
  ∧ noSystem (exampleClick s xp).state.messages = true
  ∧ (∀ pl ∈ (submitMessage s p outcome).apiCalls,
      pl.messages.head? = some (sysMsg (create_system_prompt s.decision_context)))
  ∧ (∀ pl ∈ (startNewDecision s ctx outcome).apiCalls,
      pl.messages.head? = some (sysMsg (create_system_prompt ctx))) := by
  have husr : ∀ t, noSystem (s.messages ++ [userMsg t]) = true := by
    intro t
    rw [noSystem_append, h]
    rfl
  refine ⟨?_, ?_, rfl, husr xp, ?_, ?_⟩
  · by_cases hc : ctx = ""
    · subst hc
      rw [startNewDecision_empty_eq]
      rfl
    · cases outcome with
      | transportError =>
        rw [(startNewDecision_failure_eq s ctx hc).1]
        rfl
      | parseError =>
        rw [(startNewDecision_failure_eq s ctx hc).2]
        rfl
      | success j =>
        rw [startNewDecision_success_eq s ctx j hc]
        by_cases ht : j.truthy
        · rw [if_pos ht]
          cases hpc : pyContains j "choices" with
          | error e => rfl
          | ok b =>
            cases b with
            | false => rfl
            | true =>
              cases hre : extractReply j with
              | error e => rfl
              | ok ai => rfl
        · rw [if_neg ht]
          rfl
  · rcases submitMessage_cases s p outcome with hm | ⟨j, hm⟩
    · rw [hm]
      exact husr p
    · rw [hm, noSystem_append, noSystem_append, h]
      rfl
  · intro pl hpl
    rw [submitMessage_apiCalls] at hpl
    rcases List.mem_singleton.mp hpl with rfl
    rfl
  · intro pl hpl
    by_cases hc : ctx = ""
    · subst hc
      rw [startNewDecision_empty_eq] at hpl
      exact absurd hpl (List.not_mem_nil pl)
    · rw [startNewDecision_apiCalls s ctx outcome hc] at hpl
      rcases List.mem_singleton.mp hpl with rfl
      rfl

theorem C7_witness :
    noSystem (submitMessage emptySession "ask" ApiOutcome.transportError).state.messages = true :=
  (C7_no_system_stored emptySession "c" "ask" "xp" ApiOutcome.transportError rfl).2.1

theorem or_showsError (r : HandlerResult) (h : r.shown ≠ []) :
    (storesReply r || showsError r) = true := by
  cases hr : r.shown with
  | nil => exact absurd hr h
  | cons a l =>
    have hs : showsError r = true := by
      simp [showsError, hr]
    rw [hs, Bool.or_true]

theorem storesReply_of_concat (r : HandlerResult) (l : List Message) (j : Json)
    (hm : r.state.messages = l ++ [asstMsg j]) : storesReply r = true := by
  simp [storesReply, hm, List.getLast?_concat, asstMsg]

/-- C1 (counterexample to the claim as stated): on the success body
`{"choices": []}` the SubmitMessage handler neither stores a reply nor
shows any error — the extraction raises an uncaught IndexError; and on
the success body `{}` the StartNewDecision handler silently leaves the
history empty with no reply stored and no error shown. -/
theorem C1_counterexample :
    (submitMessage emptySession "hi"
        (ApiOutcome.success (Json.obj [("choices", Json.arr [])]))).crash =
      some PyErr.indexError
  ∧ (submitMessage emptySession "hi"
        (ApiOutcome.success (Json.obj [("choices", Json.arr [])]))).shown = []
  ∧ (submitMessage emptySession "hi"
        (ApiOutcome.success (Json.obj [("choices", Json.arr [])]))).state.messages =
      [userMsg "hi"]
  ∧ (startNewDecision emptySession "x" (ApiOutcome.success (Json.obj []))).crash = none
  ∧ (startNewDecision emptySession "x" (ApiOutcome.success (Json.obj []))).shown = []
  ∧ (startNewDecision emptySession "x"
        (ApiOutcome.success (Json.obj []))).state.messages = [] :=
  ⟨rfl, rfl, rfl, rfl, rfl, rfl⟩

/-- C1 (amended): whenever no exception escapes, SubmitMessage either
appends the assistant reply or shows an inline error, and
StartNewDecision either stores the reply, shows an inline error, or
silently leaves the history empty; in both handlers an uncaught
exception can escape, exactly on a truthy success body for which either
the `choices` membership test raises or the membership test passes and
the `choices[0].message.content` extraction raises, and in that case no
inline error is displayed. -/
theorem C1_amended_error_surfacing (s : SessionState) (p ctx : String) (outcome : ApiOutcome) :
    ((submitMessage s p outcome).crash = none →
      (storesReply (submitMessage s p outcome) || showsError (submitMessage s p outcome)) = true)
  ∧ (∀ e, (submitMessage s p outcome).crash = some e →
      ∃ j, outcome = ApiOutcome.success j ∧ j.truthy = true
        ∧ (pyContains j "choices" = Except.error e
            ∨ (pyContains j "choices" = Except.ok true ∧ extractReply j = Except.error e))
        ∧ (submitMessage s p outcome).shown = [])
  ∧ ((startNewDecision s ctx outcome).crash = none →
      (storesReply (startNewDecision s ctx outcome)
        || showsError (startNewDecision s ctx outcome)
        || (startNewDecision s ctx outcome).state.messages.isEmpty) = true)
  ∧ (∀ e, (startNewDecision s ctx outcome).crash = some e →
      ∃ j, outcome = ApiOutcome.success j ∧ j.truthy = true
        ∧ (pyContains j "choices" = Except.error e
            ∨ (pyContains j "choices" = Except.ok true ∧ extractReply j = Except.error e))
        ∧ (startNewDecision s ctx outcome).shown = []) := by
  refine ⟨?_, ?_, ?_, ?_⟩
  · cases outcome with
    | transportError =>
      intro _
      exact or_showsError _ (fun hh => List.noConfusion hh)
    | parseError =>
      intro _
      exact or_showsError _ (fun hh => List.noConfusion hh)
    | success j =>
      rw [submitMessage_success_eq]
      by_cases ht : j.truthy
      · rw [if_pos ht]
        cases hpc : pyContains j "choices" with
        | error e =>
          intro hcr
          exact absurd hcr (fun hh => Option.noConfusion hh)
        | ok b =>
          cases b with
          | false =>
            intro _
            exact or_showsError _ (fun hh => List.noConfusion hh)
          | true =>
            cases hre : extractReply j with
            | error e =>
              intro hcr
              exact absurd hcr (fun hh => Option.noConfusion hh)
            | ok ai =>
              intro _
              rw [storesReply_of_concat _ (s.messages ++ [userMsg p]) ai rfl, Bool.true_or]
      · rw [if_neg ht]
        intro _
        exact or_showsError _ (fun hh => List.noConfusion hh)
  · cases outcome with
    | transportError => exact fun e h => Option.noConfusion h
    | parseError => exact fun e h => Option.noConfusion h
    | success j =>
      rw [submitMessage_success_eq]
      by_cases ht : j.truthy
      · rw [if_pos ht]
        cases hpc : pyContains j "choices" with
        | error e0 =>
          intro e h
          obtain rfl : e0 = e := Option.some.inj h
          exact ⟨j, rfl, ht, Or.inl hpc, rfl⟩
        | ok b =>
          cases b with
          | false => exact fun e h => Option.noConfusion h
          | true =>
            cases hre : extractReply j with
            | error e0 =>
              intro e h
              obtain rfl : e0 = e := Option.some.inj h
              exact ⟨j, rfl, ht, Or.inr ⟨hpc, hre⟩, rfl⟩
            | ok ai => exact fun e h => Option.noConfusion h
      · rw [if_neg ht]
        exact fun e h => Option.noConfusion h
  · by_cases hc : ctx = ""
    · subst hc
      rw [startNewDecision_empty_eq]
      intro _
      rfl
    · cases outcome with
      | transportError =>
        rw [(startNewDecision_failure_eq s ctx hc).1]
        intro _
        rfl
      | parseError =>
        rw [(startNewDecision_failure_eq s ctx hc).2]
        intro _
        rfl
      | success j =>
        rw [startNewDecision_success_eq s ctx j hc]
        by_cases ht : j.truthy
        · rw [if_pos ht]
          cases hpc : pyContains j "choices" with
          | error e =>
            intro hcr
            exact absurd hcr (fun hh => Option.noConfusion hh)
          | ok b =>
            cases b with
            | false =>
              intro _
              rfl
            | true =>
              cases hre : extractReply j with
              | error e =>
                intro hcr
                exact absurd hcr (fun hh => Option.noConfusion hh)
              | ok ai =>
                intro _
                rw [storesReply_of_concat _ [userMsg ("I need help deciding: " ++ ctx)] ai rfl,
                  Bool.true_or, Bool.true_or]
        · rw [if_neg ht]
          intro _
          rfl
  · by_cases hc : ctx = ""
    · subst hc
      rw [startNewDecision_empty_eq]
      exact fun e h => Option.noConfusion h
    · cases outcome with
      | transportError =>
        rw [(startNewDecision_failure_eq s ctx hc).1]
        exact fun e h => Option.noConfusion h
      | parseError =>
        rw [(startNewDecision_failure_eq s ctx hc).2]
        exact fun e h => Option.noConfusion h
      | success j =>
        rw [startNewDecision_success_eq s ctx j hc]
        by_cases ht : j.truthy
        · rw [if_pos ht]
          cases hpc : pyContains j "choices" with
          | error e0 =>
            intro e h
            obtain rfl : e0 = e := Option.some.inj h
            exact ⟨j, rfl, ht, Or.inl hpc, rfl⟩
          | ok b =>
            cases b with
            | false => exact fun e h => Option.noConfusion h
            | true =>
              cases hre : extractReply j with
              | error e0 =>
                intro e h
                obtain rfl : e0 = e := Option.some.inj h
                exact ⟨j, rfl, ht, Or.inr ⟨hpc, hre⟩, rfl⟩
              | ok ai => exact fun e h => Option.noConfusion h
        · rw [if_neg ht]
          exact fun e h => Option.noConfusion h

theorem C1_witness :
    (storesReply (submitMessage emptySession "hi" ApiOutcome.transportError)
      || showsError (submitMessage emptySession "hi" ApiOutcome.transportError)) = true :=
  (C1_amended_error_surfacing emptySession "hi" "" ApiOutcome.transportError).1 rfl

end Decidr
